import Mathlib

/-!
Verification development for the amos3 repository (a Python client and
batch downloader for the AMOS outdoor-webcam archive).

The definitions below are a shallow embedding of the sync core:
`amos3/client.py` (camera-info parsing), `amos3/data.py`
(`build_image_database`, the filesystem sync variant, and
`build_camera_database`), and `amos3/s3data.py`
(`build_camera_image_database`, the S3 sync variant).

Python `datetime` values are embedded as (year, month, day) triples with
lexicographic order; network fetchers are pure function parameters; the
filesystem and the S3 bucket are explicit state values threaded through
the executors.
-/

/-- A calendar date, embedding the fields of Python `datetime` that the
sync code observes (`year`, `month`, `day`; comparison in Python is
lexicographic on the fields, and the code only reads `.year`/`.month`
after comparing). -/
structure Date where
  year : Nat
  month : Nat
  day : Nat
deriving DecidableEq, Repr

/-- Lexicographic order on dates, as Python `datetime` comparison. -/
def dateLe (a b : Date) : Prop :=
  a.year < b.year ∨ (a.year = b.year ∧
    (a.month < b.month ∨ (a.month = b.month ∧ a.day ≤ b.day)))

instance (a b : Date) : Decidable (dateLe a b) := by
  unfold dateLe; exact inferInstance

/-- Python `max(a, b)` on datetimes (ties are irrelevant: equal dates are
structurally equal). -/
def dateMax (a b : Date) : Date := if dateLe a b then b else a

/-- Python `min(a, b)` on datetimes. -/
def dateMin (a b : Date) : Date := if dateLe a b then a else b

/-- The (year, month) view of a date. -/
def monthPair (d : Date) : Nat × Nat := (d.year, d.month)

/-- Lexicographic order on (year, month) pairs. -/
def pairLe (a b : Nat × Nat) : Prop :=
  a.1 < b.1 ∨ (a.1 = b.1 ∧ a.2 ≤ b.2)

instance (a b : Nat × Nat) : Decidable (pairLe a b) := by
  unfold pairLe; exact inferInstance

/-- The month enumeration of `build_image_database` (data.py lines 92-100)
and `build_camera_image_database` (s3data.py lines 92-100):

  for year in range(start_date.year, end_date.year + 1):
      for month in range(1, 12):
          if year == start_date.year and month < start_date.month: continue
          if year == end_date.year and month > end_date.month: continue
          ...

Note Python `range(1, 12)` enumerates months 1 through 11. -/
def planMonths (s e : Date) : List (Nat × Nat) :=
  (List.range' s.year (e.year + 1 - s.year)).flatMap (fun y =>
    (List.range' 1 11).filterMap (fun m =>
      if y = s.year ∧ m < s.month then none
      else if y = e.year ∧ m > e.month then none
      else some (y, m)))

/-- Camera metadata dictionary built by `get_camera_info` (client.py
lines 103-137): the typed fields of `INFO_TYPE_MAP`, the tokenized tags,
and every unrecognized field retained raw. An absent dictionary key and a
`None` value are both embedded as `none`. Float values are retained as
their validated source text (the code never computes with them). -/
structure CameraInfo where
  id : Option Int := none
  latitude : Option String := none
  longitude : Option String := none
  ip_latitude : Option String := none
  ip_longitude : Option String := none
  images_captured : Option Int := none
  date_added : Option Date := none
  last_capture : Option Date := none
  width : Option Int := none
  height : Option Int := none
  tags : Option (List String) := none
  extra : List (String × String) := []
deriving DecidableEq, Repr

/-- The camera-info dictionary with every field absent. -/
def emptyCameraInfo : CameraInfo := {}

/-- Bytes stored in a destination store: either raw entry bytes from an
archive member, or the JSON serialization of a camera-info record
(`json.dump` of the record with dates rendered to ISO strings is a
deterministic injective function of the record, embedded as a
constructor). -/
inductive Bytes where
  | raw (s : String)
  | info (c : CameraInfo)
deriving DecidableEq, Repr

/-- Outcome of `get_camera_zip(camera_id, year, month)`.

Modelled from the spec: `get_camera_zip` and `get_zip_url` are imported
from `amos3.client` by data.py and s3data.py but are not present in the
source tree (only their callers and tests are). Per the spec's Archive
Fetcher contract, opening a month's archive yields exactly one of a
navigable handle (a finite list of (entry name, entry bytes) pairs), an
Absent outcome (not-found or empty content, Python `None`), or a Corrupt
outcome (retrievable but malformed, Python `BadZipFile`). -/
inductive FetchResult where
  | ok (entries : List (String × String))
  | absent
  | corrupt
deriving DecidableEq, Repr

/-- An archive fetcher: a pure function from (camera id, year, month) to
a fetch outcome. -/
def Fetch : Type := Nat → Nat → Nat → FetchResult

/-- Whether a fetch outcome is a per-month failure (the `None` branch or
the `BadZipFile` handler in the month loops). -/
def fetchFailed : FetchResult → Bool
  | .ok _ => false
  | .absent => true
  | .corrupt => true

example : planMonths ⟨2015, 3, 10⟩ ⟨2015, 5, 2⟩ = [(2015, 3), (2015, 4), (2015, 5)] := by decide

example : planMonths ⟨2015, 12, 1⟩ ⟨2015, 12, 31⟩ = [] := by decide

/-- A filesystem state: which directories exist, and for each file path
its contents if the file exists. -/
structure FS where
  dirs : String → Bool
  files : String → Option Bytes

/-- The empty filesystem. -/
def emptyFS : FS := { dirs := fun _ => false, files := fun _ => none }

/-- `os.makedirs(p)`: mark the directory as existing. -/
def mkdirFS (p : String) (st : FS) : FS :=
  { st with dirs := fun q => if q = p then true else st.dirs q }

/-- Write a file at a path, overwriting any previous contents (open for
write / `ZipFile.extract` both replace an existing file by name). -/
def writeFS (st : FS) (p : String) (v : Bytes) : FS :=
  { st with files := fun q => if q = p then some v else st.files q }

/-- Apply a sequence of (path, bytes) writes in order, later writes
overwriting earlier ones at the same path. -/
def applyWrites (f : String → Option Bytes) : List (String × Bytes) → (String → Option Bytes)
  | [] => f
  | (p, v) :: ws => applyWrites (fun q => if q = p then some v else f q) ws

/-- `ZipFile.extract` of every member of an archive into the camera's
output directory (data.py lines 111-112): each entry is written under
`camPath`, keeping its in-archive name. -/
def extractAllFS (camPath : String) (entries : List (String × String)) (st : FS) : FS :=
  entries.foldl (fun acc nb => writeFS acc (camPath ++ "/" ++ nb.1) (.raw nb.2)) st

/-- Result of one camera's month loop: the updated state, the fetch calls
issued (in order), and the months recorded as failed (the months whose
`None`/`BadZipFile` branches printed a failure and continued). -/
structure MonthsOutFS where
  store : FS
  fetchCalls : List (Nat × Nat × Nat)
  failed : List (Nat × Nat)

/-- The month loop of `build_image_database` (data.py lines 92-129):
fetch each planned month in order; on success extract every member; on
`None` (absent) or `BadZipFile` (corrupt) log the month as failed and
continue with the next month. -/
def processMonthsFS (fetch : Fetch) (cid : Nat) (camPath : String) :
    List (Nat × Nat) → FS → MonthsOutFS
  | [], st => ⟨st, [], []⟩
  | ym :: rest, st =>
    match fetch cid ym.1 ym.2 with
    | .ok entries =>
      let r := processMonthsFS fetch cid camPath rest (extractAllFS camPath entries st)
      ⟨r.store, (cid, ym.1, ym.2) :: r.fetchCalls, r.failed⟩
    | .absent =>
      let r := processMonthsFS fetch cid camPath rest st
      ⟨r.store, (cid, ym.1, ym.2) :: r.fetchCalls, ym :: r.failed⟩
    | .corrupt =>
      let r := processMonthsFS fetch cid camPath rest st
      ⟨r.store, (cid, ym.1, ym.2) :: r.fetchCalls, ym :: r.failed⟩

/-- Result of one camera's body of the `build_image_database` loop: the
updated filesystem, the start/end date variables as left for the next
iteration (the Python loop reassigns the caller's `start_date` and
`end_date`), the fetch calls, the failed months, and whether the
skip-existing `continue` fired. -/
structure CameraOutFS where
  store : FS
  startDate : Option Date
  endDate : Option Date
  fetchCalls : List (Nat × Nat × Nat)
  failedMonths : List (Nat × Nat)
  skipped : Bool

/-- The per-camera body of `build_image_database` past the skip gate
(data.py lines 67-129), with the camera's info already resolved: write
`info.json`; clip the start/end dates against
`date_added`/`last_capture` (`continue` when a side is missing, leaving
the variables as reassigned so far); then run the month loop over the
clipped window. -/
def syncCameraCoreFS (info : CameraInfo) (fetch : Fetch) (cid : Nat)
    (camPath : String) (s e : Option Date) (st1 : FS) : CameraOutFS :=
  let st2 := writeFS st1 (camPath ++ "/info.json") (.info info)
  match info.date_added with
  | none => ⟨st2, s, e, [], [], false⟩
  | some ad =>
    let s' := match s with | some sd => dateMax sd ad | none => ad
    match info.last_capture with
    | none => ⟨st2, some s', e, [], [], false⟩
    | some lc =>
      let e' := match e with | some ed => dateMin ed lc | none => lc
      let m := processMonthsFS fetch cid camPath (planMonths s' e') st2
      ⟨m.store, some s', some e', m.fetchCalls, m.failed, false⟩

/-- The directory-existence / skip-existing gate of the per-camera body
(data.py lines 59-65): `os.makedirs` when the camera directory is
missing, `continue` when it exists and `skip_existing` is set, otherwise
fall through to `syncCameraCoreFS`. -/
def syncCameraFS (info : CameraInfo) (fetch : Fetch) (cid : Nat)
    (outputPath : String) (skip : Bool) (s e : Option Date) (st : FS) : CameraOutFS :=
  let camPath := outputPath ++ "/" ++ toString cid
  if st.dirs camPath then
    if skip then ⟨st, s, e, [], [], true⟩
    else syncCameraCoreFS info fetch cid camPath s e st
  else syncCameraCoreFS info fetch cid camPath s e (mkdirFS camPath st)

/-- Errors raised by the embedded `get_camera_info`: `ValueError` (failed
`int` or date coercion), `IndexError` (`.pop()` on an empty webcam list),
and an XML parse failure. -/
inductive InfoError where
  | valueError
  | indexError
  | parseError
deriving DecidableEq, Repr

instance {e a : Type} [DecidableEq e] [DecidableEq a] : DecidableEq (Except e a) := fun x y =>
  match x, y with
  | .ok v, .ok w =>
    if h : v = w then .isTrue (by rw [h]) else .isFalse (by intro hh; cases hh; exact h rfl)
  | .error v, .error w =>
    if h : v = w then .isTrue (by rw [h]) else .isFalse (by intro hh; cases hh; exact h rfl)
  | .ok _, .error _ => .isFalse (by intro hh; cases hh)
  | .error _, .ok _ => .isFalse (by intro hh; cases hh)

/-- Result of `build_image_database` (data.py lines 41-131): the final
filesystem, the start/end date variables after the loop, the fetch calls
and failed months across all cameras, and the returned value — `.ok true`
when the loop completes (the function always returns `True`), or the
propagated exception from an unguarded `get_camera_info` call, which
aborts the remaining cameras while the filesystem mutations so far
persist. -/
structure BatchOutFS where
  store : FS
  startDate : Option Date
  endDate : Option Date
  fetchCalls : List (Nat × Nat × Nat)
  failedMonths : List (Nat × Nat)
  outcome : Except InfoError Bool

/-- The camera loop of `build_image_database` (data.py lines 56-131):
`get_camera_info` is called without a handler, so a failure aborts the
whole batch; otherwise the per-camera body runs and its reassigned
start/end dates are carried into the next iteration. -/
def buildGoFS (infoFn : Nat → Except InfoError CameraInfo) (fetch : Fetch)
    (outputPath : String) (skip : Bool) :
    List Nat → Option Date → Option Date → FS → BatchOutFS
  | [], s, e, st => ⟨st, s, e, [], [], .ok true⟩
  | c :: rest, s, e, st =>
    match infoFn c with
    | .error err => ⟨st, s, e, [], [], .error err⟩
    | .ok info =>
      let r := syncCameraFS info fetch c outputPath skip s e st
      let b := buildGoFS infoFn fetch outputPath skip rest r.startDate r.endDate r.store
      ⟨b.store, b.startDate, b.endDate, r.fetchCalls ++ b.fetchCalls,
        r.failedMonths ++ b.failedMonths, b.outcome⟩

/-- `build_image_database` (data.py lines 41-131): ensure the output path
exists, then run the camera loop. -/
def build_image_database (infoFn : Nat → Except InfoError CameraInfo) (fetch : Fetch)
    (camera_id_list : List Nat) (start_date end_date : Option Date)
    (output_path : String) (skip_existing : Bool) (st : FS) : BatchOutFS :=
  let st0 := if st.dirs output_path then st else mkdirFS output_path st
  buildGoFS infoFn fetch output_path skip_existing camera_id_list start_date end_date st0

/-- An S3 bucket state: for each key, the stored bytes if the key exists
(`put_object` overwrites by key; `head_object` probes one exact key). -/
def S3 : Type := String → Option Bytes

/-- The empty bucket. -/
def emptyS3 : S3 := fun _ => none

/-- `put_object(Key=p, Body=v)`: write bytes at a key, overwriting. -/
def writeS3 (st : S3) (p : String) (v : Bytes) : S3 :=
  fun q => if q = p then some v else st q

/-- `s3_path_exists` (s3data.py lines 27-40): a `head_object` probe of
the exact key. -/
def s3_path_exists (path : String) (st : S3) : Bool := (st path).isSome

/-- Result of one camera's S3 month loop. -/
structure MonthsOutS3 where
  store : S3
  fetchCalls : List (Nat × Nat × Nat)
  failed : List (Nat × Nat)

/-- The month loop of `build_camera_image_database` (s3data.py lines
92-121): fetch each planned month in order; on success `put_object` every
member under the camera prefix; on `None` or `BadZipFile` log the month
as failed and continue. -/
def processMonthsS3 (fetch : Fetch) (cid : Nat) (camPath : String) :
    List (Nat × Nat) → S3 → MonthsOutS3
  | [], st => ⟨st, [], []⟩
  | ym :: rest, st =>
    match fetch cid ym.1 ym.2 with
    | .ok entries =>
      let st' := entries.foldl (fun acc nb => writeS3 acc (camPath ++ "/" ++ nb.1) (.raw nb.2)) st
      let r := processMonthsS3 fetch cid camPath rest st'
      ⟨r.store, (cid, ym.1, ym.2) :: r.fetchCalls, r.failed⟩
    | .absent =>
      let r := processMonthsS3 fetch cid camPath rest st
      ⟨r.store, (cid, ym.1, ym.2) :: r.fetchCalls, ym :: r.failed⟩
    | .corrupt =>
      let r := processMonthsS3 fetch cid camPath rest st
      ⟨r.store, (cid, ym.1, ym.2) :: r.fetchCalls, ym :: r.failed⟩

/-- Result of `build_camera_image_database`: the bucket state, the fetch
calls, the failed months, whether the skip-existing early return fired,
and the returned value (`.ok true` / `.ok false`, or a propagated
`get_camera_info` exception). -/
structure CameraOutS3 where
  store : S3
  fetchCalls : List (Nat × Nat × Nat)
  failedMonths : List (Nat × Nat)
  skipped : Bool
  outcome : Except InfoError Bool

/-- `build_camera_image_database` (s3data.py lines 43-123): resolve the
camera's info (a failure propagates); return `True` early when the camera
prefix key exists and `skip_existing`; `put_object` the info record at
`<camPath>/info.json`; clip the dates (`return False` when a side cannot
be derived); run the month loop; return `True`. -/
def build_camera_image_database (infoFn : Nat → Except InfoError CameraInfo)
    (fetch : Fetch) (camera_id : Nat) (start_date end_date : Option Date)
    (output_path : String) (skip_existing : Bool) (st : S3) : CameraOutS3 :=
  match infoFn camera_id with
  | .error err => ⟨st, [], [], false, .error err⟩
  | .ok info =>
    let camPath := output_path ++ "/" ++ toString camera_id
    if s3_path_exists camPath st && skip_existing then ⟨st, [], [], true, .ok true⟩
    else
      let st1 := writeS3 st (camPath ++ "/info.json") (.info info)
      match info.date_added with
      | none => ⟨st1, [], [], false, .ok false⟩
      | some ad =>
        let s' := match start_date with | some sd => dateMax sd ad | none => ad
        match info.last_capture with
        | none => ⟨st1, [], [], false, .ok false⟩
        | some lc =>
          let e' := match end_date with | some ed => dateMin ed lc | none => lc
          let m := processMonthsS3 fetch camera_id camPath (planMonths s' e') st1
          ⟨m.store, m.fetchCalls, m.failed, false, .ok true⟩

/-- The effective start date of the sync window (data.py lines 76-82 and
s3data.py lines 76-82): `max` when both the requested start and
`date_added` are present, `date_added` alone when only it is present,
and underivable (the `continue`/`return False` branch) when `date_added`
is missing. -/
def effectiveStart (s da : Option Date) : Option Date :=
  match s, da with
  | some sd, some ad => some (dateMax sd ad)
  | none, some ad => some ad
  | _, none => none

/-- The effective end date (data.py lines 84-90, s3data.py lines 84-90),
dual to `effectiveStart` with `min` against `last_capture`. -/
def effectiveEnd (e lc : Option Date) : Option Date :=
  match e, lc with
  | some ed, some lc' => some (dateMin ed lc')
  | none, some lc' => some lc'
  | _, none => none

/-- The clipped sync window for a camera, or `none` when either side is
underivable. -/
def effectiveWindow (s e : Option Date) (info : CameraInfo) : Option (Date × Date) :=
  match effectiveStart s info.date_added with
  | none => none
  | some s' =>
    match effectiveEnd e info.last_capture with
    | none => none
    | some e' => some (s', e')

/-- Strip leading and trailing whitespace from a character list (the
core of Python `str.strip()`). -/
def stripChars (cs : List Char) : List Char :=
  ((cs.dropWhile Char.isWhitespace).reverse.dropWhile Char.isWhitespace).reverse

/-- Model of Python `str.strip()`. -/
def pyStrip (s : String) : String := String.mk (stripChars s.toList)

/-- Split a character list on a separator character; like Python
`str.split(sep)`, the empty input yields one empty token. -/
def splitChars (sep : Char) : List Char → List (List Char)
  | [] => [[]]
  | c :: rest =>
    if c = sep then [] :: splitChars sep rest
    else
      match splitChars sep rest with
      | t :: ts => (c :: t) :: ts
      | [] => [[c]]

/-- Model of Python `str.split(sep)` for a one-character separator. -/
def pySplit (sep : Char) (s : String) : List String :=
  (splitChars sep s.toList).map String.mk

/-- Digits-only natural number literal: the common core of Python's
`int()` on a sign-stripped token (rejects the empty string and any
non-digit character). -/
def parseNatDigits : List Char → Option Nat
  | [] => none
  | cs =>
    if cs.all Char.isDigit then
      some (cs.foldl (fun a c => a * 10 + (c.toNat - 48)) 0)
    else none

/-- Model of Python `int(text)`: surrounding whitespace stripped, an
optional sign, then decimal digits; anything else raises `ValueError`
(here: `none`). -/
def parseInt (s : String) : Option Int :=
  match stripChars s.toList with
  | '-' :: rest => (parseNatDigits rest).map (fun n => -(n : Int))
  | '+' :: rest => (parseNatDigits rest).map (fun n => (n : Int))
  | cs => (parseNatDigits cs).map (fun n => (n : Int))

/-- Model of Python `float(text)` as a literal validator: an optional
sign then digits with at most one decimal point and at least one digit.
A valid literal is retained as its stripped text (the code never
computes with the value); anything else raises `ValueError` (here:
`none`). -/
def parseFloatLit (s : String) : Option String :=
  let t := pyStrip s
  let cs := match t.toList with
    | '-' :: r => r
    | '+' :: r => r
    | r => r
  if cs ≠ [] ∧ cs.all (fun c => c.isDigit ∨ c = '.') ∧
      (cs.filter (fun c => c = '.')).length ≤ 1 ∧ cs.any Char.isDigit
  then some t else none

/-- Model of `dateutil.parser.parse(text)` on the ISO dates the AMOS
endpoints serve: `YYYY-MM-DD` (numeric components split on dashes);
anything else raises `ValueError` (here: `none`). -/
def parseDate (s : String) : Option Date :=
  match ((pySplit (Char.ofNat 45) s).map (fun p => parseNatDigits p.toList)) with
  | [some y, some m, some d] => some ⟨y, m, d⟩
  | _ => none

/-- The declared type of a camera-info field. -/
inductive FieldKind where
  | intK
  | floatK
  | datetimeK
  | other
deriving DecidableEq, Repr

/-- `INFO_TYPE_MAP` (client.py lines 18-28): the typed fields; every
other tag is untyped (`other`). -/
def fieldKind (tag : String) : FieldKind :=
  if tag = "id" ∨ tag = "images_captured" ∨ tag = "width" ∨ tag = "height" then .intK
  else if tag = "latitude" ∨ tag = "longitude" ∨ tag = "ip_latitude" ∨ tag = "ip_longitude" then .floatK
  else if tag = "date_added" ∨ tag = "last_capture" then .datetimeK
  else .other

/-- Python dict assignment on the raw-string entries: replace the value
of an existing key in place, else append the new binding. -/
def updExtra (l : List (String × String)) (k v : String) : List (String × String) :=
  if l.any (fun p => p.1 = k) then l.map (fun p => if p.1 = k then (k, v) else p)
  else l ++ [(k, v)]

/-- One iteration of the field loop of `get_camera_info` (client.py
lines 119-131): an unrecognized tag is stored raw; an `int` tag is
coerced with no handler (`ValueError` propagates); a `float` tag is
coerced inside try/except with failures becoming `None`; a datetime tag
is parsed with no handler. -/
def set_info_field (ci : CameraInfo) (tag txt : String) : Except InfoError CameraInfo :=
  match fieldKind tag with
  | .other => .ok { ci with extra := updExtra ci.extra tag txt }
  | .intK =>
    match parseInt txt with
    | none => .error .valueError
    | some v =>
      .ok (if tag = "id" then { ci with id := some v }
        else if tag = "images_captured" then { ci with images_captured := some v }
        else if tag = "width" then { ci with width := some v }
        else { ci with height := some v })
  | .floatK =>
    let v := parseFloatLit txt
    .ok (if tag = "latitude" then { ci with latitude := v }
      else if tag = "longitude" then { ci with longitude := v }
      else if tag = "ip_latitude" then { ci with ip_latitude := v }
      else { ci with ip_longitude := v })
  | .datetimeK =>
    match parseDate txt with
    | none => .error .valueError
    | some d =>
      .ok (if tag = "date_added" then { ci with date_added := some d }
        else { ci with last_capture := some d })

/-- The tags tokenizer (client.py line 135):
`[t.strip() for t in camera_info["tags"].split(",") if t.strip()]`. -/
def splitTrim (s : String) : List String :=
  ((pySplit (Char.ofNat 44) s).map pyStrip).filter (fun t => t ≠ "")

/-- The upstream `webcam_info` response as `get_camera_info` observes it:
either XML that fails to parse, or a parsed document with its list of
`webcam` elements, each a list of (tag, text) children. -/
inductive InfoResponse where
  | malformed
  | doc (webcams : List (List (String × String)))
deriving DecidableEq, Repr

/-- `get_camera_info` (client.py lines 103-137): parse the response
(`lxml` failure raises), `.pop()` the last `webcam` element
(`IndexError` when there is none), run the field-coercion loop, then
tokenize the `tags` entry if present. -/
def get_camera_info (resp : InfoResponse) : Except InfoError CameraInfo :=
  match resp with
  | .malformed => .error .parseError
  | .doc ws =>
    match ws.getLast? with
    | none => .error .indexError
    | some fields =>
      match fields.foldlM (fun ci f => set_info_field ci f.1 f.2) emptyCameraInfo with
      | .error e => .error e
      | .ok ci =>
        match ci.extra.lookup "tags" with
        | some txt =>
          .ok { ci with tags := some (splitTrim txt),
                        extra := ci.extra.filter (fun p => p.1 ≠ "tags") }
        | none => .ok ci

/-- `build_camera_database` (data.py lines 17-38, the query loop of lines
30-38): each camera's info is fetched inside try/except `ValueError`, so
a `ValueError` for one camera is logged and the remaining cameras are
still queried; any other exception propagates. -/
def build_camera_database (infoFn : Nat → Except InfoError CameraInfo) :
    List Nat → Except InfoError (List CameraInfo)
  | [] => .ok []
  | c :: rest =>
    match infoFn c with
    | .ok i => (build_camera_database infoFn rest).map (fun l => i :: l)
    | .error .valueError => build_camera_database infoFn rest
    | .error err => .error err

/-- The derived sequence of (path, bytes) writes that one camera's month
loop performs: for each fetched month, its entries in order (a failed
month writes nothing). -/
def monthWrites (fetch : Fetch) (cid : Nat) (camPath : String)
    (months : List (Nat × Nat)) : List (String × Bytes) :=
  months.flatMap (fun ym =>
    match fetch cid ym.1 ym.2 with
    | .ok entries => entries.map (fun nb => (camPath ++ "/" ++ nb.1, Bytes.raw nb.2))
    | .absent => []
    | .corrupt => [])

/-- The derived sequence of writes of `syncCameraCoreFS` (and of the S3
body past its skip gate): the `info.json` record, then the month-loop
writes over the clipped window. -/
def cameraWrites (info : CameraInfo) (fetch : Fetch) (cid : Nat)
    (camPath : String) (s e : Option Date) : List (String × Bytes) :=
  (camPath ++ "/info.json", Bytes.info info) ::
    (match info.date_added with
     | none => []
     | some ad =>
       let s' := match s with | some sd => dateMax sd ad | none => ad
       match info.last_capture with
       | none => []
       | some lc =>
         let e' := match e with | some ed => dateMin ed lc | none => lc
         monthWrites fetch cid camPath (planMonths s' e'))

/-- The month list one camera's sync attempts: the plan over the clipped
window, or nothing when the window is underivable. -/
def cameraMonths (info : CameraInfo) (s e : Option Date) : List (Nat × Nat) :=
  match effectiveWindow s e info with
  | some (a, b) => planMonths a b
  | none => []

/-- Strict lexicographic order on (year, month) pairs. -/
def pairLt (a b : Nat × Nat) : Prop :=
  a.1 < b.1 ∨ (a.1 = b.1 ∧ a.2 < b.2)

instance (a b : Nat × Nat) : Decidable (pairLt a b) := by
  unfold pairLt; exact inferInstance

/-- First-some choice on optional bytes (the value a path holds after a
write sequence: the last write if any, else the prior contents). -/
def oor (a b : Option Bytes) : Option Bytes :=
  match a with
  | some v => some v
  | none => b

/-- The last write to a path in a write sequence, if any. -/
def lastWrite (ws : List (String × Bytes)) (p : String) : Option Bytes :=
  ws.foldl (fun acc kv => if kv.1 = p then some kv.2 else acc) none

/-- A camera record active only in December 2015: its full activity
window plans no months under the `range(1, 12)` loop. -/
def infoDecember : CameraInfo :=
  { date_added := some ⟨2015, 12, 1⟩, last_capture := some ⟨2015, 12, 31⟩ }

/-- Camera 65's record for the concrete runs: active 2015-03-10 through
2015-05-02. -/
def cInfo65 : CameraInfo :=
  { id := some 65, date_added := some ⟨2015, 3, 10⟩, last_capture := some ⟨2015, 5, 2⟩ }

/-- A fetcher for which every month's archive is available with a single
entry. -/
def fetchOk : Fetch := fun _ _ _ => .ok [("a.jpg", "x")]

/-- A fetcher for which month (2016, 6) is corrupt and every other month
is available. -/
def fetchCorrupt : Fetch := fun _ y m => if y = 2016 ∧ m = 6 then .corrupt else .ok [("a.jpg", "x")]

/-- A camera record active May through July 2016, so that (2016, 6) lies
strictly inside its planned window. -/
def infoSummer : CameraInfo :=
  { date_added := some ⟨2016, 5, 1⟩, last_capture := some ⟨2016, 7, 15⟩ }

/-- The first S3 run of camera 65 (skip_existing set, empty bucket). -/
def s3run1 : CameraOutS3 :=
  build_camera_image_database (fun _ => .ok cInfo65) fetchOk 65 none none "cameras" true emptyS3

/-- A second S3 run of camera 65 over the bucket the first run produced,
again with skip_existing set. -/
def s3run2 : CameraOutS3 :=
  build_camera_image_database (fun _ => .ok cInfo65) fetchOk 65 none none "cameras" true s3run1.store

/-- An upstream directory in which camera 1's response has no webcam
element and every other camera resolves to a full record. -/
def respMixed (c : Nat) : InfoResponse :=
  if c = 1 then .doc []
  else .doc [[("id", "65"), ("date_added", "2015-03-10"), ("last_capture", "2015-05-02")]]

theorem dateLe_refl (a : Date) : dateLe a a := by
  unfold dateLe; omega

theorem dateLe_trans {a b c : Date} (h1 : dateLe a b) (h2 : dateLe b c) : dateLe a c := by
  unfold dateLe at *; omega

theorem dateLe_max_left (a b : Date) : dateLe a (dateMax a b) := by
  unfold dateMax
  by_cases h : dateLe a b
  · simp [h]
  · simpa [h] using dateLe_refl a

theorem dateLe_max_right (a b : Date) : dateLe b (dateMax a b) := by
  unfold dateMax
  by_cases h : dateLe a b
  · simpa [h] using dateLe_refl b
  · simp only [h, if_false]
    unfold dateLe at *; omega

theorem dateMin_le_left (a b : Date) : dateLe (dateMin a b) a := by
  unfold dateMin
  by_cases h : dateLe a b
  · simpa [h] using dateLe_refl a
  · simp only [h, if_false]
    unfold dateLe at *; omega

theorem dateMin_le_right (a b : Date) : dateLe (dateMin a b) b := by
  unfold dateMin
  by_cases h : dateLe a b
  · simp [h]
  · simpa [h] using dateLe_refl b

theorem pairLe_trans {a b c : Nat × Nat} (h1 : pairLe a b) (h2 : pairLe b c) : pairLe a c := by
  unfold pairLe at *; omega

theorem monthPair_mono {a b : Date} (h : dateLe a b) : pairLe (monthPair a) (monthPair b) := by
  unfold dateLe at h; unfold pairLe monthPair; simp only; omega

theorem oor_assoc (a b c : Option Bytes) : oor (oor a b) c = oor a (oor b c) := by
  cases a <;> rfl

theorem lastWrite_foldl (p : String) :
    ∀ (t : List (String × Bytes)) (i : Option Bytes),
      t.foldl (fun acc kv => if kv.1 = p then some kv.2 else acc) i = oor (lastWrite t p) i := by
  intro t
  induction t with
  | nil => intro i; rfl
  | cons h t ih =>
    intro i
    show List.foldl _ (if h.1 = p then some h.2 else i) t = _
    rw [ih]
    show _ = oor (List.foldl _ (if h.1 = p then some h.2 else none) t) i
    rw [ih, oor_assoc]
    by_cases hp : h.1 = p <;> simp [hp, oor]

theorem applyWrites_eval :
    ∀ (ws : List (String × Bytes)) (f : String → Option Bytes) (p : String),
      applyWrites f ws p = oor (lastWrite ws p) (f p) := by
  intro ws
  induction ws with
  | nil => intro f p; rfl
  | cons kv t ih =>
    intro f p
    obtain ⟨k, v⟩ := kv
    show applyWrites (fun q => if q = k then some v else f q) t p = _
    rw [ih]
    show _ = oor (List.foldl _ (if k = p then some v else none) t) (f p)
    rw [lastWrite_foldl, oor_assoc]
    by_cases hp : p = k
    · subst hp; simp [oor]
    · have hk : ¬ (k = p) := fun hh => hp hh.symm
      simp [hp, hk, oor]

theorem applyWrites_append (a b : List (String × Bytes)) (f : String → Option Bytes) :
    applyWrites f (a ++ b) = applyWrites (applyWrites f a) b := by
  induction a generalizing f with
  | nil => rfl
  | cons kv t ih =>
    obtain ⟨k, v⟩ := kv
    show applyWrites _ (t ++ b) = _
    rw [ih]
    rfl

theorem applyWrites_idem (ws : List (String × Bytes)) (f : String → Option Bytes) :
    applyWrites (applyWrites f ws) ws = applyWrites f ws := by
  funext p
  rw [applyWrites_eval, applyWrites_eval]
  cases h : lastWrite ws p <;> simp [oor]

theorem extractAllFS_eq (camPath : String) :
    ∀ (entries : List (String × String)) (st : FS),
      extractAllFS camPath entries st =
        ⟨st.dirs, applyWrites st.files
          (entries.map (fun nb => (camPath ++ "/" ++ nb.1, Bytes.raw nb.2)))⟩ := by
  intro entries
  induction entries with
  | nil => intro st; rfl
  | cons nb t ih =>
    intro st
    show extractAllFS camPath t (writeFS st _ _) = _
    rw [ih]
    rfl

theorem processMonthsFS_store (fetch : Fetch) (cid : Nat) (camPath : String) :
    ∀ (months : List (Nat × Nat)) (st : FS),
      (processMonthsFS fetch cid camPath months st).store =
        ⟨st.dirs, applyWrites st.files (monthWrites fetch cid camPath months)⟩ := by
  intro months
  induction months with
  | nil => intro st; rfl
  | cons ym t ih =>
    intro st
    cases h : fetch cid ym.1 ym.2 with
    | ok entries =>
      simp only [processMonthsFS, h, monthWrites, List.flatMap_cons]
      rw [ih, extractAllFS_eq, applyWrites_append]
      rfl
    | absent =>
      simp only [processMonthsFS, h, monthWrites, List.flatMap_cons]
      rw [ih]
      rfl
    | corrupt =>
      simp only [processMonthsFS, h, monthWrites, List.flatMap_cons]
      rw [ih]
      rfl

theorem processMonthsFS_fetchCalls (fetch : Fetch) (cid : Nat) (camPath : String) :
    ∀ (months : List (Nat × Nat)) (st : FS),
      (processMonthsFS fetch cid camPath months st).fetchCalls =
        months.map (fun ym => (cid, ym.1, ym.2)) := by
  intro months
  induction months with
  | nil => intro st; rfl
  | cons ym t ih =>
    intro st
    cases h : fetch cid ym.1 ym.2 <;> simp only [processMonthsFS, h, List.map_cons] <;> rw [ih]

theorem processMonthsFS_failed (fetch : Fetch) (cid : Nat) (camPath : String) :
    ∀ (months : List (Nat × Nat)) (st : FS),
      (processMonthsFS fetch cid camPath months st).failed =
        months.filter (fun ym => fetchFailed (fetch cid ym.1 ym.2)) := by
  intro months
  induction months with
  | nil => intro st; rfl
  | cons ym t ih =>
    intro st
    cases h : fetch cid ym.1 ym.2 <;>
      simp only [processMonthsFS, h, List.filter_cons, fetchFailed] <;>
      simp only [ih, if_true, if_false] <;> rfl

theorem s3ExtractEq (camPath : String) :
    ∀ (entries : List (String × String)) (st : S3),
      entries.foldl (fun acc nb => writeS3 acc (camPath ++ "/" ++ nb.1) (Bytes.raw nb.2)) st =
        applyWrites st (entries.map (fun nb => (camPath ++ "/" ++ nb.1, Bytes.raw nb.2))) := by
  intro entries
  induction entries with
  | nil => intro st; rfl
  | cons nb t ih =>
    intro st
    show List.foldl _ (writeS3 st _ _) t = _
    rw [ih]
    rfl

theorem processMonthsS3_store (fetch : Fetch) (cid : Nat) (camPath : String) :
    ∀ (months : List (Nat × Nat)) (st : S3),
      (processMonthsS3 fetch cid camPath months st).store =
        applyWrites st (monthWrites fetch cid camPath months) := by
  intro months
  induction months with
  | nil => intro st; rfl
  | cons ym t ih =>
    intro st
    cases h : fetch cid ym.1 ym.2 with
    | ok entries =>
      simp only [processMonthsS3, h, monthWrites, List.flatMap_cons]
      rw [s3ExtractEq, ih, applyWrites_append]
      rfl
    | absent =>
      simp only [processMonthsS3, h, monthWrites, List.flatMap_cons]
      rw [ih]
      rfl
    | corrupt =>
      simp only [processMonthsS3, h, monthWrites, List.flatMap_cons]
      rw [ih]
      rfl

theorem processMonthsS3_fetchCalls (fetch : Fetch) (cid : Nat) (camPath : String) :
    ∀ (months : List (Nat × Nat)) (st : S3),
      (processMonthsS3 fetch cid camPath months st).fetchCalls =
        months.map (fun ym => (cid, ym.1, ym.2)) := by
  intro months
  induction months with
  | nil => intro st; rfl
  | cons ym t ih =>
    intro st
    cases h : fetch cid ym.1 ym.2 <;> simp only [processMonthsS3, h, List.map_cons] <;> rw [ih]

theorem FSext {a b : FS} (h1 : a.dirs = b.dirs) (h2 : a.files = b.files) : a = b := by
  cases a; cases b; simp_all

theorem syncCameraCoreFS_store (info : CameraInfo) (fetch : Fetch) (cid : Nat)
    (camPath : String) (s e : Option Date) (st : FS) :
    (syncCameraCoreFS info fetch cid camPath s e st).store =
      ⟨st.dirs, applyWrites st.files (cameraWrites info fetch cid camPath s e)⟩ := by
  unfold syncCameraCoreFS cameraWrites
  cases hda : info.date_added with
  | none => rfl
  | some ad =>
    cases hlc : info.last_capture with
    | none => rfl
    | some lc =>
      simp only
      rw [processMonthsFS_store]
      rfl

theorem syncCameraCoreFS_fetchCalls (info : CameraInfo) (fetch : Fetch) (cid : Nat)
    (camPath : String) (s e : Option Date) (st : FS) :
    (syncCameraCoreFS info fetch cid camPath s e st).fetchCalls =
      (cameraMonths info s e).map (fun ym => (cid, ym.1, ym.2)) := by
  unfold syncCameraCoreFS cameraMonths effectiveWindow effectiveStart effectiveEnd
  cases hda : info.date_added with
  | none => cases s <;> rfl
  | some ad =>
    cases hlc : info.last_capture with
    | none => cases s <;> cases e <;> rfl
    | some lc =>
      simp only
      rw [processMonthsFS_fetchCalls]
      cases s <;> cases e <;> rfl

theorem syncCameraCoreFS_skipped (info : CameraInfo) (fetch : Fetch) (cid : Nat)
    (camPath : String) (s e : Option Date) (st : FS) :
    (syncCameraCoreFS info fetch cid camPath s e st).skipped = false := by
  unfold syncCameraCoreFS
  cases info.date_added with
  | none => rfl
  | some ad => cases info.last_capture <;> rfl

theorem syncCameraFS_dirs_after (info : CameraInfo) (fetch : Fetch) (cid : Nat)
    (p : String) (sk : Bool) (s e : Option Date) (st : FS) :
    (syncCameraFS info fetch cid p sk s e st).store.dirs (p ++ "/" ++ toString cid) = true := by
  unfold syncCameraFS
  by_cases hd : st.dirs (p ++ "/" ++ toString cid)
  · rw [if_pos hd]
    cases sk with
    | true => simpa using hd
    | false =>
      simp only [Bool.false_eq_true, if_false]
      rw [syncCameraCoreFS_store]
      exact hd
  · rw [if_neg hd, syncCameraCoreFS_store]
    simp [mkdirFS]

theorem syncCameraFS_false_files (info : CameraInfo) (fetch : Fetch) (cid : Nat)
    (p : String) (s e : Option Date) (st : FS) :
    (syncCameraFS info fetch cid p false s e st).store.files =
      applyWrites st.files (cameraWrites info fetch cid (p ++ "/" ++ toString cid) s e) := by
  unfold syncCameraFS
  by_cases hd : st.dirs (p ++ "/" ++ toString cid)
  · rw [if_pos hd]
    simp only [Bool.false_eq_true, if_false]
    rw [syncCameraCoreFS_store]
  · rw [if_neg hd, syncCameraCoreFS_store]
    rfl

theorem syncCameraFS_false_dirs (info : CameraInfo) (fetch : Fetch) (cid : Nat)
    (p : String) (s e : Option Date) (st : FS) :
    (syncCameraFS info fetch cid p false s e st).store.dirs =
      (if st.dirs (p ++ "/" ++ toString cid) then st.dirs
       else (mkdirFS (p ++ "/" ++ toString cid) st).dirs) := by
  unfold syncCameraFS
  by_cases hd : st.dirs (p ++ "/" ++ toString cid)
  · rw [if_pos hd, if_pos hd]
    simp only [Bool.false_eq_true, if_false]
    rw [syncCameraCoreFS_store]
  · rw [if_neg hd, if_neg hd, syncCameraCoreFS_store]

theorem s3_sync_false_store (infoFn : Nat → Except InfoError CameraInfo) (fetch : Fetch)
    (cid : Nat) (s e : Option Date) (p : String) (st : S3) :
    (build_camera_image_database infoFn fetch cid s e p false st).store =
      (match infoFn cid with
       | .error _ => st
       | .ok info => applyWrites st (cameraWrites info fetch cid (p ++ "/" ++ toString cid) s e)) := by
  unfold build_camera_image_database
  cases hi : infoFn cid with
  | error err => rfl
  | ok info =>
    simp only [Bool.and_false, Bool.false_eq_true, if_false]
    unfold cameraWrites
    cases hda : info.date_added with
    | none => rfl
    | some ad =>
      cases hlc : info.last_capture with
      | none => rfl
      | some lc =>
        simp only
        rw [processMonthsS3_store]
        rfl

/-- C3: for every camera, date range, and destination state, running the
sync a second time with skip_existing=false leaves the destination store
(filesystem variant and S3 variant alike) in exactly the state the first
run produced: every write, the metadata record included, overwrites by
name rather than duplicating. -/
theorem C3_sync_twice_idempotent :
    (∀ (info : CameraInfo) (fetch : Fetch) (cid : Nat) (p : String)
        (s e : Option Date) (st : FS),
      (syncCameraFS info fetch cid p false s e
          (syncCameraFS info fetch cid p false s e st).store).store =
        (syncCameraFS info fetch cid p false s e st).store) ∧
    (∀ (infoFn : Nat → Except InfoError CameraInfo) (fetch : Fetch) (cid : Nat)
        (s e : Option Date) (p : String) (st : S3),
      (build_camera_image_database infoFn fetch cid s e p false
          (build_camera_image_database infoFn fetch cid s e p false st).store).store =
        (build_camera_image_database infoFn fetch cid s e p false st).store) := by
  constructor
  · intro info fetch cid p s e st
    apply FSext
    · rw [syncCameraFS_false_dirs, if_pos (syncCameraFS_dirs_after info fetch cid p false s e st)]
    · rw [syncCameraFS_false_files, syncCameraFS_false_files, applyWrites_idem]
  · intro infoFn fetch cid s e p st
    rw [s3_sync_false_store, s3_sync_false_store]
    cases hi : infoFn cid with
    | error err => rfl
    | ok info =>
      simp only
      rw [applyWrites_idem]

/-- C2 counterexample: camera 65 is fully synced into an empty bucket by
`build_camera_image_database` with skip_existing=true (the run completes,
returning True, after fetching its whole window), yet an immediately
repeated run over the resulting bucket does not skip and fetches every
month again: the existence probe targets the bare camera prefix key
`cameras/65`, which no write of the sync ever creates. -/
theorem C2_counterexample_s3_second_run_refetches :
    s3run1.outcome = .ok true ∧ s3run1.skipped = false ∧
    s3run1.fetchCalls = [(65, 2015, 3), (65, 2015, 4), (65, 2015, 5)] ∧
    s3run2.skipped = false ∧
    s3run2.fetchCalls = [(65, 2015, 3), (65, 2015, 4), (65, 2015, 5)] := by
  decide

/-- C2 as amended: in the filesystem variant the skip marker is the
camera's output directory, not the metadata record. When the directory
exists and skip_existing is set the camera is skipped with zero fetch
calls and an unchanged store; when the directory is absent the full
computed window is (re)fetched regardless of skip_existing; and a second
filesystem run immediately after any first run with skip_existing=true
skips with zero fetch calls (the first run always leaves the directory
in place). -/
theorem C2_skip_marker_semantics :
    (∀ (info : CameraInfo) (fetch : Fetch) (cid : Nat) (p : String)
        (s e : Option Date) (st : FS),
      st.dirs (p ++ "/" ++ toString cid) = true →
        (syncCameraFS info fetch cid p true s e st).skipped = true ∧
        (syncCameraFS info fetch cid p true s e st).fetchCalls = [] ∧
        (syncCameraFS info fetch cid p true s e st).store = st) ∧
    (∀ (info : CameraInfo) (fetch : Fetch) (cid : Nat) (p : String) (sk : Bool)
        (s e : Option Date) (st : FS),
      st.dirs (p ++ "/" ++ toString cid) = false →
        (syncCameraFS info fetch cid p sk s e st).skipped = false ∧
        (syncCameraFS info fetch cid p sk s e st).fetchCalls =
          (cameraMonths info s e).map (fun ym => (cid, ym.1, ym.2))) ∧
    (∀ (info : CameraInfo) (fetch : Fetch) (cid : Nat) (p : String) (sk : Bool)
        (s e : Option Date) (st : FS),
      (syncCameraFS info fetch cid p true s e
          (syncCameraFS info fetch cid p sk s e st).store).skipped = true ∧
      (syncCameraFS info fetch cid p true s e
          (syncCameraFS info fetch cid p sk s e st).store).fetchCalls = []) := by
  refine ⟨?_, ?_, ?_⟩
  · intro info fetch cid p s e st h
    unfold syncCameraFS
    rw [if_pos h]
    exact ⟨rfl, rfl, rfl⟩
  · intro info fetch cid p sk s e st h
    unfold syncCameraFS
    rw [if_neg (by simp [h])]
    exact ⟨syncCameraCoreFS_skipped _ _ _ _ _ _ _,
           syncCameraCoreFS_fetchCalls _ _ _ _ _ _ _⟩
  · intro info fetch cid p sk s e st
    have h := syncCameraFS_dirs_after info fetch cid p sk s e st
    set st1 := (syncCameraFS info fetch cid p sk s e st).store with hst1
    unfold syncCameraFS
    rw [if_pos h]
    exact ⟨rfl, rfl⟩

/-- Witness for C2: with camera 65's record, a directory-present store is
skipped, and a directory-absent store triggers the full computed window
March-May 2015. -/
theorem C2_skip_marker_semantics_witness :
    (syncCameraFS cInfo65 fetchOk 65 "data" true none none (mkdirFS "data/65" emptyFS)).skipped = true ∧
    (syncCameraFS cInfo65 fetchOk 65 "data" false none none emptyFS).fetchCalls =
      [(65, 2015, 3), (65, 2015, 4), (65, 2015, 5)] := by
  constructor
  · exact ((C2_skip_marker_semantics.1 cInfo65 fetchOk 65 "data" none none
      (mkdirFS "data/65" emptyFS)) (by decide)).1
  · have h := (C2_skip_marker_semantics.2.1 cInfo65 fetchOk 65 "data" false none none
      emptyFS) (by decide)
    rw [h.2]
    decide

theorem processMonthsS3_failed (fetch : Fetch) (cid : Nat) (camPath : String) :
    ∀ (months : List (Nat × Nat)) (st : S3),
      (processMonthsS3 fetch cid camPath months st).failed =
        months.filter (fun ym => fetchFailed (fetch cid ym.1 ym.2)) := by
  intro months
  induction months with
  | nil => intro st; rfl
  | cons ym t ih =>
    intro st
    cases h : fetch cid ym.1 ym.2 <;>
      simp only [processMonthsS3, h, List.filter_cons, fetchFailed] <;>
      simp only [ih, if_true, if_false] <;> rfl

theorem planIfEq {y m : Nat} {s e : Date} {x : Nat × Nat}
    (h : (if y = s.year ∧ m < s.month then none
          else if y = e.year ∧ m > e.month then none
          else some (y, m)) = some x) : x = (y, m) := by
  by_cases h1 : y = s.year ∧ m < s.month
  · simp [h1] at h
  · by_cases h2 : y = e.year ∧ m > e.month
    · simp [h1, h2] at h
    · simp [h1, h2] at h
      exact h.symm

theorem planMonths_inner_fst {y : Nat} {s e : Date} {x : Nat × Nat}
    (h : x ∈ (List.range' 1 11).filterMap (fun m =>
        if y = s.year ∧ m < s.month then none
        else if y = e.year ∧ m > e.month then none
        else some (y, m))) : x.1 = y := by
  rw [List.mem_filterMap] at h
  obtain ⟨m, _, hm⟩ := h
  rw [planIfEq hm]

theorem planMonths_sorted (s e : Date) : List.Pairwise pairLt (planMonths s e) := by
  unfold planMonths
  rw [List.pairwise_flatMap]
  constructor
  · intro y _
    apply (List.pairwise_lt_range' 1 11).filterMap
    intro a b hab x hx q hq
    rw [Option.mem_def] at hx hq
    rw [planIfEq hx, planIfEq hq]
    exact Or.inr ⟨rfl, hab⟩
  · apply List.Pairwise.imp ?_ (List.pairwise_lt_range' _ _)
    intro y z hyz x hx q hq
    exact Or.inl (by rw [planMonths_inner_fst hx, planMonths_inner_fst hq]; exact hyz)

/-- C4: the month loops of both sync variants attempt every planned
month in plan order (one fetch call per planned month, in a plan that is
strictly ascending in (year, month)), whatever each month's outcome, and
record exactly the Absent or Corrupt months as failed: a failing month
never aborts the remaining months. -/
theorem C4_partial_failure_isolation :
    (∀ (fetch : Fetch) (cid : Nat) (camPath : String)
        (months : List (Nat × Nat)) (st : FS),
      (processMonthsFS fetch cid camPath months st).fetchCalls =
        months.map (fun ym => (cid, ym.1, ym.2)) ∧
      (processMonthsFS fetch cid camPath months st).failed =
        months.filter (fun ym => fetchFailed (fetch cid ym.1 ym.2))) ∧
    (∀ (fetch : Fetch) (cid : Nat) (camPath : String)
        (months : List (Nat × Nat)) (st : S3),
      (processMonthsS3 fetch cid camPath months st).fetchCalls =
        months.map (fun ym => (cid, ym.1, ym.2)) ∧
      (processMonthsS3 fetch cid camPath months st).failed =
        months.filter (fun ym => fetchFailed (fetch cid ym.1 ym.2))) ∧
    (∀ s e : Date, List.Pairwise pairLt (planMonths s e)) :=
  ⟨fun fetch cid camPath months st =>
      ⟨processMonthsFS_fetchCalls fetch cid camPath months st,
       processMonthsFS_failed fetch cid camPath months st⟩,
   fun fetch cid camPath months st =>
      ⟨processMonthsS3_fetchCalls fetch cid camPath months st,
       processMonthsS3_failed fetch cid camPath months st⟩,
   planMonths_sorted⟩

/-- C7: the Archive Fetcher outcome for any (camera, year, month) is
exactly one of a handle with its entries, Absent, or Corrupt, and the
month loops of both sync variants branch on the outcome and keep going:
the number of fetch calls always equals the number of planned months,
whatever the outcomes are. -/
theorem C7_fetch_outcome_trichotomy :
    (∀ r : FetchResult,
      (∃ entries, r = FetchResult.ok entries) ∨ r = FetchResult.absent ∨ r = FetchResult.corrupt) ∧
    (∀ (fetch : Fetch) (cid : Nat) (camPath : String)
        (months : List (Nat × Nat)) (st : FS),
      (processMonthsFS fetch cid camPath months st).fetchCalls.length = months.length) ∧
    (∀ (fetch : Fetch) (cid : Nat) (camPath : String)
        (months : List (Nat × Nat)) (st : S3),
      (processMonthsS3 fetch cid camPath months st).fetchCalls.length = months.length) := by
  refine ⟨?_, ?_, ?_⟩
  · intro r
    cases r with
    | ok entries => exact Or.inl ⟨entries, rfl⟩
    | absent => exact Or.inr (Or.inl rfl)
    | corrupt => exact Or.inr (Or.inr rfl)
  · intro fetch cid camPath months st
    rw [processMonthsFS_fetchCalls, List.length_map]
  · intro fetch cid camPath months st
    rw [processMonthsS3_fetchCalls, List.length_map]

/-- C1: the month enumeration uses Python `range(1, 12)` and therefore
never includes December. A camera active only in December 2015 plans no
months at all and its full filesystem sync issues no fetch calls; a
full-year window plans exactly months 1 through 11. -/
theorem C1_month_enumeration_excludes_december :
    planMonths ⟨2015, 12, 1⟩ ⟨2015, 12, 31⟩ = [] ∧
    planMonths ⟨2015, 1, 1⟩ ⟨2015, 12, 31⟩ =
      [(2015, 1), (2015, 2), (2015, 3), (2015, 4), (2015, 5), (2015, 6),
       (2015, 7), (2015, 8), (2015, 9), (2015, 10), (2015, 11)] ∧
    (build_image_database (fun _ => .ok infoDecember) fetchOk [65] none none
        "data" false emptyFS).fetchCalls = [] := by
  decide

theorem buildGoFS_outcome_ok (infoFn : Nat → Except InfoError CameraInfo) (fetch : Fetch)
    (p : String) (sk : Bool) :
    ∀ (cams : List Nat) (s e : Option Date) (st : FS),
      (∀ c ∈ cams, ∃ i, infoFn c = .ok i) →
        (buildGoFS infoFn fetch p sk cams s e st).outcome = .ok true := by
  intro cams
  induction cams with
  | nil => intro s e st _; rfl
  | cons c rest ih =>
    intro s e st h
    obtain ⟨i, hi⟩ := h c (List.mem_cons_self c rest)
    simp only [buildGoFS, hi]
    exact ih _ _ _ (fun d hd => h d (List.mem_cons_of_mem c hd))

/-- C5 counterexample: over a window in which month (2016, 6) is Corrupt
and every other month succeeds, a filesystem batch sync records the
failed month yet returns exactly the same value (`True`) as the fully
successful run: there is no PartialFailure-shaped result carrying the
failed months. -/
theorem C5_counterexample_no_partial_failure_result :
    (build_image_database (fun _ => .ok infoSummer) fetchCorrupt [65] none none
        "data" false emptyFS).failedMonths = [(2016, 6)] ∧
    (build_image_database (fun _ => .ok infoSummer) fetchCorrupt [65] none none
        "data" false emptyFS).outcome = .ok true ∧
    (build_image_database (fun _ => .ok infoSummer) fetchOk [65] none none
        "data" false emptyFS).failedMonths = [] ∧
    (build_image_database (fun _ => .ok infoSummer) fetchOk [65] none none
        "data" false emptyFS).outcome = .ok true := by
  decide

/-- C5 as amended: sync returns a plain boolean, not a
Synced/Skipped/PartialFailure result. The filesystem batch returns True
whenever every camera's info call succeeds, regardless of month
failures; the S3 per-camera variant returns True when it skips or when
the window is derivable, and False exactly when the window is
underivable — per-month failures are only logged, never reflected in the
return value. -/
theorem C5_return_values :
    (∀ (infoFn : Nat → Except InfoError CameraInfo) (fetch : Fetch) (cams : List Nat)
        (s e : Option Date) (p : String) (sk : Bool) (st : FS),
      (∀ c ∈ cams, ∃ i, infoFn c = .ok i) →
        (build_image_database infoFn fetch cams s e p sk st).outcome = .ok true) ∧
    (∀ (infoFn : Nat → Except InfoError CameraInfo) (info : CameraInfo) (fetch : Fetch)
        (cid : Nat) (s e : Option Date) (p : String) (sk : Bool) (st : S3),
      infoFn cid = .ok info →
        (build_camera_image_database infoFn fetch cid s e p sk st).outcome =
          .ok ((s3_path_exists (p ++ "/" ++ toString cid) st && sk) ||
               (effectiveWindow s e info).isSome)) := by
  constructor
  · intro infoFn fetch cams s e p sk st h
    unfold build_image_database
    exact buildGoFS_outcome_ok infoFn fetch p sk cams s e _ h
  · intro infoFn info fetch cid s e p sk st hi
    unfold build_camera_image_database
    rw [hi]
    simp only
    cases hgate : s3_path_exists (p ++ "/" ++ toString cid) st && sk with
    | true => simp [hgate]
    | false =>
      simp only [hgate, Bool.false_eq_true, if_false, Bool.false_or]
      cases hda : info.date_added with
      | none =>
        simp only [effectiveWindow, effectiveStart, hda]
        cases s <;> rfl
      | some ad =>
        cases hlc : info.last_capture with
        | none =>
          simp only [effectiveWindow, effectiveStart, effectiveEnd, hda, hlc]
          cases s <;> cases e <;> rfl
        | some lc =>
          simp only [effectiveWindow, effectiveStart, effectiveEnd, hda, hlc]
          cases s <;> cases e <;> rfl

/-- Witness for C5: the corrupt-June run returns True, and the S3 run of
camera 65 on an empty bucket returns True. -/
theorem C5_return_values_witness :
    (build_image_database (fun _ => .ok infoSummer) fetchCorrupt [65] none none
        "data" false emptyFS).outcome = .ok true ∧
    (build_camera_image_database (fun _ => .ok cInfo65) fetchOk 65 none none
        "cameras" true emptyS3).outcome = .ok true := by
  constructor
  · exact C5_return_values.1 (fun _ => .ok infoSummer) fetchCorrupt [65] none none
      "data" false emptyFS (fun c _ => ⟨infoSummer, rfl⟩)
  · exact (C5_return_values.2 (fun _ => .ok cInfo65) cInfo65 fetchOk 65 none none
      "cameras" true emptyS3 rfl).trans (by decide)

theorem syncCameraCoreFS_startDate (info : CameraInfo) (fetch : Fetch) (cid : Nat)
    (camPath : String) (s e : Option Date) (st : FS) :
    (syncCameraCoreFS info fetch cid camPath s e st).startDate =
      (match info.date_added with
       | none => s
       | some ad => some (match s with | some sd => dateMax sd ad | none => ad)) := by
  unfold syncCameraCoreFS
  cases info.date_added with
  | none => rfl
  | some ad => cases info.last_capture <;> rfl

theorem syncCameraCoreFS_endDate (info : CameraInfo) (fetch : Fetch) (cid : Nat)
    (camPath : String) (s e : Option Date) (st : FS) :
    (syncCameraCoreFS info fetch cid camPath s e st).endDate =
      (match info.date_added with
       | none => e
       | some _ =>
         match info.last_capture with
         | none => e
         | some lc => some (match e with | some ed => dateMin ed lc | none => lc)) := by
  unfold syncCameraCoreFS
  cases info.date_added with
  | none => rfl
  | some ad => cases info.last_capture <;> rfl

theorem syncCameraFS_startDate_mono (info : CameraInfo) (fetch : Fetch) (cid : Nat)
    (p : String) (sk : Bool) (s e : Option Date) (st : FS) (a : Date) (hs : s = some a) :
    ∃ b, (syncCameraFS info fetch cid p sk s e st).startDate = some b ∧ dateLe a b := by
  subst hs
  unfold syncCameraFS
  by_cases hd : st.dirs (p ++ "/" ++ toString cid)
  · rw [if_pos hd]
    cases sk with
    | true => exact ⟨a, rfl, dateLe_refl a⟩
    | false =>
      simp only [Bool.false_eq_true, if_false, syncCameraCoreFS_startDate]
      cases info.date_added with
      | none => exact ⟨a, rfl, dateLe_refl a⟩
      | some ad => exact ⟨dateMax a ad, rfl, dateLe_max_left a ad⟩
  · rw [if_neg hd]
    rw [syncCameraCoreFS_startDate]
    cases info.date_added with
    | none => exact ⟨a, rfl, dateLe_refl a⟩
    | some ad => exact ⟨dateMax a ad, rfl, dateLe_max_left a ad⟩

theorem syncCameraFS_endDate_mono (info : CameraInfo) (fetch : Fetch) (cid : Nat)
    (p : String) (sk : Bool) (s e : Option Date) (st : FS) (a : Date) (he : e = some a) :
    ∃ b, (syncCameraFS info fetch cid p sk s e st).endDate = some b ∧ dateLe b a := by
  subst he
  unfold syncCameraFS
  by_cases hd : st.dirs (p ++ "/" ++ toString cid)
  · rw [if_pos hd]
    cases sk with
    | true => exact ⟨a, rfl, dateLe_refl a⟩
    | false =>
      simp only [Bool.false_eq_true, if_false, syncCameraCoreFS_endDate]
      cases info.date_added with
      | none => exact ⟨a, rfl, dateLe_refl a⟩
      | some ad =>
        cases info.last_capture with
        | none => exact ⟨a, rfl, dateLe_refl a⟩
        | some lc => exact ⟨dateMin a lc, rfl, dateMin_le_left a lc⟩
  · rw [if_neg hd]
    rw [syncCameraCoreFS_endDate]
    cases info.date_added with
    | none => exact ⟨a, rfl, dateLe_refl a⟩
    | some ad =>
      cases info.last_capture with
      | none => exact ⟨a, rfl, dateLe_refl a⟩
      | some lc => exact ⟨dateMin a lc, rfl, dateMin_le_left a lc⟩

theorem buildGoFS_startDate_mono (infoFn : Nat → Except InfoError CameraInfo) (fetch : Fetch)
    (p : String) (sk : Bool) :
    ∀ (cams : List Nat) (s e : Option Date) (st : FS) (a : Date), s = some a →
      ∃ b, (buildGoFS infoFn fetch p sk cams s e st).startDate = some b ∧ dateLe a b := by
  intro cams
  induction cams with
  | nil =>
    intro s e st a hs
    subst hs
    exact ⟨a, rfl, dateLe_refl a⟩
  | cons c rest ih =>
    intro s e st a hs
    cases hi : infoFn c with
    | error err =>
      subst hs
      simp only [buildGoFS, hi]
      exact ⟨a, rfl, dateLe_refl a⟩
    | ok info =>
      simp only [buildGoFS, hi]
      obtain ⟨b1, hb1, hab1⟩ := syncCameraFS_startDate_mono info fetch c p sk s e st a hs
      obtain ⟨b2, hb2, hb12⟩ := ih _ _ _ b1 hb1
      exact ⟨b2, hb2, dateLe_trans hab1 hb12⟩

theorem buildGoFS_endDate_mono (infoFn : Nat → Except InfoError CameraInfo) (fetch : Fetch)
    (p : String) (sk : Bool) :
    ∀ (cams : List Nat) (s e : Option Date) (st : FS) (a : Date), e = some a →
      ∃ b, (buildGoFS infoFn fetch p sk cams s e st).endDate = some b ∧ dateLe b a := by
  intro cams
  induction cams with
  | nil =>
    intro s e st a he
    subst he
    exact ⟨a, rfl, dateLe_refl a⟩
  | cons c rest ih =>
    intro s e st a he
    cases hi : infoFn c with
    | error err =>
      subst he
      simp only [buildGoFS, hi]
      exact ⟨a, rfl, dateLe_refl a⟩
    | ok info =>
      simp only [buildGoFS, hi]
      obtain ⟨b1, hb1, hab1⟩ := syncCameraFS_endDate_mono info fetch c p sk s e st a he
      obtain ⟨b2, hb2, hb12⟩ := ih _ _ _ b1 hb1
      exact ⟨b2, hb2, dateLe_trans hb12 hab1⟩

/-- C10: in the filesystem batch loop the caller's start/end variables
are reassigned to each camera's clipped values and carried into the next
iteration: the loop step hands the per-camera result's start/end dates
to the rest of the camera list, the per-camera step can only move the
start bound later and the end bound earlier, and hence over any camera
list the carried start bound is nondecreasing and the carried end bound
is nonincreasing relative to the original request. -/
theorem C10_bound_carrying :
    (∀ (infoFn : Nat → Except InfoError CameraInfo) (fetch : Fetch) (p : String) (sk : Bool)
        (c : Nat) (rest : List Nat) (s e : Option Date) (st : FS) (info : CameraInfo),
      infoFn c = .ok info →
        buildGoFS infoFn fetch p sk (c :: rest) s e st =
          (let r := syncCameraFS info fetch c p sk s e st
           let b := buildGoFS infoFn fetch p sk rest r.startDate r.endDate r.store
           ⟨b.store, b.startDate, b.endDate, r.fetchCalls ++ b.fetchCalls,
            r.failedMonths ++ b.failedMonths, b.outcome⟩)) ∧
    (∀ (info : CameraInfo) (fetch : Fetch) (cid : Nat) (p : String) (sk : Bool)
        (s e : Option Date) (st : FS) (a : Date), s = some a →
      ∃ b, (syncCameraFS info fetch cid p sk s e st).startDate = some b ∧ dateLe a b) ∧
    (∀ (info : CameraInfo) (fetch : Fetch) (cid : Nat) (p : String) (sk : Bool)
        (s e : Option Date) (st : FS) (a : Date), e = some a →
      ∃ b, (syncCameraFS info fetch cid p sk s e st).endDate = some b ∧ dateLe b a) ∧
    (∀ (infoFn : Nat → Except InfoError CameraInfo) (fetch : Fetch) (p : String) (sk : Bool)
        (cams : List Nat) (s e : Option Date) (st : FS) (a : Date), s = some a →
      ∃ b, (buildGoFS infoFn fetch p sk cams s e st).startDate = some b ∧ dateLe a b) ∧
    (∀ (infoFn : Nat → Except InfoError CameraInfo) (fetch : Fetch) (p : String) (sk : Bool)
        (cams : List Nat) (s e : Option Date) (st : FS) (a : Date), e = some a →
      ∃ b, (buildGoFS infoFn fetch p sk cams s e st).endDate = some b ∧ dateLe b a) := by
  refine ⟨?_, syncCameraFS_startDate_mono, syncCameraFS_endDate_mono,
    fun infoFn fetch p sk cams => buildGoFS_startDate_mono infoFn fetch p sk cams,
    fun infoFn fetch p sk cams => buildGoFS_endDate_mono infoFn fetch p sk cams⟩
  intro infoFn fetch p sk c rest s e st info hi
  simp only [buildGoFS, hi]

/-- Witness for C10: camera 65 clips a January 2015 request start up to
its 2015-03-10 first-seen date, and a two-camera batch leaves the end
bound no later than the requested 2016-01-01. -/
theorem C10_bound_carrying_witness :
    (∃ b, (syncCameraFS cInfo65 fetchOk 65 "data" false (some ⟨2015, 1, 1⟩)
        (some ⟨2016, 1, 1⟩) emptyFS).startDate = some b ∧ dateLe ⟨2015, 1, 1⟩ b) ∧
    (∃ b, (buildGoFS (fun _ => .ok cInfo65) fetchOk "data" false [65, 66]
        (some ⟨2015, 1, 1⟩) (some ⟨2016, 1, 1⟩) emptyFS).endDate = some b ∧
        dateLe b ⟨2016, 1, 1⟩) :=
  ⟨C10_bound_carrying.2.1 cInfo65 fetchOk 65 "data" false (some ⟨2015, 1, 1⟩)
      (some ⟨2016, 1, 1⟩) emptyFS ⟨2015, 1, 1⟩ rfl,
   C10_bound_carrying.2.2.2.2 (fun _ => .ok cInfo65) fetchOk "data" false [65, 66]
      (some ⟨2015, 1, 1⟩) (some ⟨2016, 1, 1⟩) emptyFS ⟨2016, 1, 1⟩ rfl⟩

theorem planIfCond {y m : Nat} {s e : Date} {x : Nat × Nat}
    (h : (if y = s.year ∧ m < s.month then none
          else if y = e.year ∧ m > e.month then none
          else some (y, m)) = some x) :
    x = (y, m) ∧ ¬(y = s.year ∧ m < s.month) ∧ ¬(y = e.year ∧ m > e.month) := by
  by_cases h1 : y = s.year ∧ m < s.month
  · simp [h1] at h
  · by_cases h2 : y = e.year ∧ m > e.month
    · simp [h1, h2] at h
    · simp [h1, h2] at h
      exact ⟨h.symm, h1, h2⟩

theorem mem_planMonths {s e : Date} {ym : Nat × Nat} :
    ym ∈ planMonths s e ↔
      (s.year ≤ ym.1 ∧ ym.1 ≤ e.year ∧ 1 ≤ ym.2 ∧ ym.2 ≤ 11 ∧
       (ym.1 = s.year → s.month ≤ ym.2) ∧ (ym.1 = e.year → ym.2 ≤ e.month)) := by
  unfold planMonths
  rw [List.mem_flatMap]
  constructor
  · rintro ⟨y, hy, hx⟩
    rw [List.mem_range'_1] at hy
    rw [List.mem_filterMap] at hx
    obtain ⟨m, hm, hfm⟩ := hx
    rw [List.mem_range'_1] at hm
    obtain ⟨hx', hg1, hg2⟩ := planIfCond hfm
    subst hx'
    simp only
    omega
  · obtain ⟨y, m⟩ := ym
    simp only
    rintro ⟨h1, h2, h3, h4, h5, h6⟩
    refine ⟨y, ?_, ?_⟩
    · rw [List.mem_range'_1]
      omega
    · rw [List.mem_filterMap]
      refine ⟨m, ?_, ?_⟩
      · rw [List.mem_range'_1]
        omega
      · rw [if_neg (by omega), if_neg (by omega)]

theorem planMonths_sub_left {s e : Date} {ym : Nat × Nat} (h : ym ∈ planMonths s e) :
    pairLe (monthPair s) ym := by
  rw [mem_planMonths] at h
  unfold pairLe monthPair
  simp only
  omega

theorem planMonths_sub_right {s e : Date} {ym : Nat × Nat} (h : ym ∈ planMonths s e) :
    pairLe ym (monthPair e) := by
  rw [mem_planMonths] at h
  unfold pairLe monthPair
  simp only
  omega

theorem planMonths_empty_of {s e : Date} (h : ¬ pairLe (monthPair s) (monthPair e)) :
    planMonths s e = [] := by
  rw [List.eq_nil_iff_forall_not_mem]
  intro x hx
  exact h (pairLe_trans (planMonths_sub_left hx) (planMonths_sub_right hx))

/-- C6 counterexample: with first-seen 2015-03-01 ≤ last-seen 2015-03-31
and the requested range [2015-03-20, 2015-03-10], the clipped
effective_start 2015-03-20 is strictly after the effective_end
2015-03-10, yet the plan is not Empty: the code compares full datetimes
but enumerates at month granularity, so month (2015, 3) is still
attempted (and lies outside the empty requested interval). -/
theorem C6_counterexample_day_granularity :
    dateLe ⟨2015, 3, 1⟩ ⟨2015, 3, 31⟩ ∧
    effectiveWindow (some ⟨2015, 3, 20⟩) (some ⟨2015, 3, 10⟩)
        { emptyCameraInfo with date_added := some ⟨2015, 3, 1⟩,
                               last_capture := some ⟨2015, 3, 31⟩ } =
      some (⟨2015, 3, 20⟩, ⟨2015, 3, 10⟩) ∧
    ¬ dateLe ⟨2015, 3, 20⟩ ⟨2015, 3, 10⟩ ∧
    planMonths ⟨2015, 3, 20⟩ ⟨2015, 3, 10⟩ = [(2015, 3)] ∧
    (syncCameraFS { emptyCameraInfo with date_added := some ⟨2015, 3, 1⟩,
                                         last_capture := some ⟨2015, 3, 31⟩ }
        fetchOk 65 "data" false (some ⟨2015, 3, 20⟩) (some ⟨2015, 3, 10⟩)
        emptyFS).fetchCalls = [(65, 2015, 3)] := by
  decide

/-- C6 as amended: for records with defined first-seen ≤ last-seen the
planner computes effective_start as max(requested_start, first-seen) and
effective_end as min(requested_end, last-seen) (taking the camera bound
when the request side is absent), every planned month lies within the
month-granular intersection of [first-seen, last-seen] and the requested
range, and the plan is empty whenever effective_start exceeds
effective_end at (year, month) granularity (not at full datetime
granularity); an underivable window makes the camera's sync a no-op with
zero fetch calls. -/
theorem C6_window_clipping :
    (∀ (rs re : Option Date) (info : CameraInfo) (fs ls : Date),
      info.date_added = some fs → info.last_capture = some ls → dateLe fs ls →
      ∃ s e, effectiveWindow rs re info = some (s, e) ∧
        s = (match rs with | some r => dateMax r fs | none => fs) ∧
        e = (match re with | some r => dateMin r ls | none => ls) ∧
        (∀ ym ∈ planMonths s e,
          pairLe (monthPair fs) ym ∧ pairLe ym (monthPair ls) ∧
          (∀ r, rs = some r → pairLe (monthPair r) ym) ∧
          (∀ r, re = some r → pairLe ym (monthPair r))) ∧
        (¬ pairLe (monthPair s) (monthPair e) → planMonths s e = [])) ∧
    (∀ (info : CameraInfo) (fetch : Fetch) (cid : Nat) (p : String) (sk : Bool)
        (s e : Option Date) (st : FS),
      effectiveWindow s e info = none →
        (syncCameraFS info fetch cid p sk s e st).fetchCalls = []) := by
  constructor
  · intro rs re info fs ls hda hlc hfl
    refine ⟨_, _, ?_, rfl, rfl, ?_, planMonths_empty_of⟩
    · unfold effectiveWindow effectiveStart effectiveEnd
      rw [hda, hlc]
      cases rs <;> cases re <;> rfl
    · intro ym hym
      have h1 := planMonths_sub_left hym
      have h2 := planMonths_sub_right hym
      refine ⟨?_, ?_, ?_, ?_⟩
      · refine pairLe_trans (monthPair_mono ?_) h1
        cases rs with
        | none => exact dateLe_refl fs
        | some r => exact dateLe_max_right r fs
      · refine pairLe_trans h2 (monthPair_mono ?_)
        cases re with
        | none => exact dateLe_refl ls
        | some r => exact dateMin_le_right r ls
      · intro r hr
        subst hr
        exact pairLe_trans (monthPair_mono (dateLe_max_left r fs)) h1
      · intro r hr
        subst hr
        exact pairLe_trans h2 (monthPair_mono (dateMin_le_left r ls))
  · intro info fetch cid p sk s e st hw
    unfold syncCameraFS
    by_cases hd : st.dirs (p ++ "/" ++ toString cid)
    · rw [if_pos hd]
      cases sk with
      | true => rfl
      | false =>
        simp only [Bool.false_eq_true, if_false]
        rw [syncCameraCoreFS_fetchCalls]
        unfold cameraMonths
        rw [hw]
        rfl
    · rw [if_neg hd, syncCameraCoreFS_fetchCalls]
      unfold cameraMonths
      rw [hw]
      rfl

/-- Witness for C6: camera 65's record clips a 2015-01-01 request start
up to first-seen 2015-03-10 with an unbounded end, and a camera with no
dates is a no-op. -/
theorem C6_window_clipping_witness :
    effectiveWindow (some ⟨2015, 1, 1⟩) none cInfo65 =
      some (⟨2015, 3, 10⟩, ⟨2015, 5, 2⟩) ∧
    (syncCameraFS emptyCameraInfo fetchOk 65 "data" false none none emptyFS).fetchCalls = [] := by
  constructor
  · obtain ⟨s, e, hw, hs, he, _, _⟩ := C6_window_clipping.1 (some ⟨2015, 1, 1⟩) none cInfo65
      ⟨2015, 3, 10⟩ ⟨2015, 5, 2⟩ rfl rfl (by decide)
    rw [hw]
    subst hs
    subst he
    decide
  · exact C6_window_clipping.2 emptyCameraInfo fetchOk 65 "data" false none none emptyFS
      (by decide)

/-- C8 counterexample: in a two-camera filesystem batch in which camera
1's upstream response has no webcam record and camera 65 resolves fully,
camera 1's failure propagates out of the unguarded `get_camera_info`
call in the batch loop: the batch aborts with the error, no fetch call
is ever made, and camera 65 is never processed (its `info.json` is
absent from the final store). -/
theorem C8_counterexample_batch_aborts :
    (build_image_database (fun c => get_camera_info (respMixed c)) fetchOk [1, 65]
        none none "data" false emptyFS).outcome = .error .indexError ∧
    (build_image_database (fun c => get_camera_info (respMixed c)) fetchOk [1, 65]
        none none "data" false emptyFS).fetchCalls = [] ∧
    (build_image_database (fun c => get_camera_info (respMixed c)) fetchOk [1, 65]
        none none "data" false emptyFS).store.files "data/65/info.json" = none := by
  decide

/-- C8 as amended: `get_camera_info` does fail with a typed error rather
than returning a record when the upstream yields malformed or empty
data, but the batch loop of `build_image_database` calls it unguarded,
so one camera's failure aborts the whole batch with the remaining
cameras unprocessed and the store untouched from that point; only
`build_camera_database` catches the per-camera `ValueError` and
continues with the remaining cameras. -/
theorem C8_notfound_isolation :
    (get_camera_info .malformed = .error .parseError ∧
     get_camera_info (.doc []) = .error .indexError) ∧
    (∀ (infoFn : Nat → Except InfoError CameraInfo) (fetch : Fetch) (p : String) (sk : Bool)
        (c : Nat) (rest : List Nat) (s e : Option Date) (st : FS) (err : InfoError),
      infoFn c = .error err →
        (buildGoFS infoFn fetch p sk (c :: rest) s e st).outcome = .error err ∧
        (buildGoFS infoFn fetch p sk (c :: rest) s e st).fetchCalls = [] ∧
        (buildGoFS infoFn fetch p sk (c :: rest) s e st).store = st) ∧
    (∀ (infoFn : Nat → Except InfoError CameraInfo) (c : Nat) (rest : List Nat),
      infoFn c = .error .valueError →
        build_camera_database infoFn (c :: rest) = build_camera_database infoFn rest) := by
  refine ⟨⟨rfl, rfl⟩, ?_, ?_⟩
  · intro infoFn fetch p sk c rest s e st err hi
    simp only [buildGoFS, hi]
    exact ⟨trivial, trivial, trivial⟩
  · intro infoFn c rest hi
    simp only [build_camera_database, hi]

/-- Witness for C8: the mixed directory's camera 1 aborts a batch tail,
and an always-ValueError directory is skipped by
`build_camera_database`. -/
theorem C8_notfound_isolation_witness :
    (buildGoFS (fun c => get_camera_info (respMixed c)) fetchOk "data" false [1, 65]
        none none emptyFS).outcome = .error .indexError ∧
    build_camera_database (fun _ => .error .valueError) [7] = .ok [] := by
  constructor
  · exact (C8_notfound_isolation.2.1 (fun c => get_camera_info (respMixed c)) fetchOk "data"
      false 1 [65] none none emptyFS .indexError (by rfl)).1
  · exact (C8_notfound_isolation.2.2 (fun _ => .error .valueError) 7 [] rfl).trans rfl

/-- C9 counterexample: `images_captured` is an int-typed field, its
coercion has no exception handler, and the text "abc" fails to parse, so
`get_camera_info` raises ValueError instead of leaving the field absent. -/
theorem C9_counterexample_int_coercion_raises :
    parseInt "abc" = none ∧
    get_camera_info (.doc [[("images_captured", "abc")]]) = .error .valueError :=
  ⟨rfl, rfl⟩

/-- C9 as amended: only float-typed fields are coerced inside
try/except, becoming absent on a parse failure; int-typed fields whose
text fails to parse raise ValueError (a hard failure); an unrecognized
field name is retained with its raw string; and a tags field is split on
commas with each token a trimmed nonempty piece of the original. -/
theorem C9_field_coercion :
    (∀ (ci : CameraInfo) (tag txt : String), fieldKind tag = .floatK →
      ∃ ci', set_info_field ci tag txt = .ok ci') ∧
    (∀ txt : String, parseFloatLit txt = none →
      get_camera_info (.doc [[("latitude", txt)]]) = .ok emptyCameraInfo) ∧
    (∀ tag txt : String, fieldKind tag = .intK → parseInt txt = none →
      get_camera_info (.doc [[(tag, txt)]]) = .error .valueError) ∧
    (∀ tag txt : String, fieldKind tag = .other → tag ≠ "tags" →
      get_camera_info (.doc [[(tag, txt)]]) =
        .ok { emptyCameraInfo with extra := [(tag, txt)] }) ∧
    (∀ txt : String, get_camera_info (.doc [[("tags", txt)]]) =
      .ok { emptyCameraInfo with tags := some (splitTrim txt) }) ∧
    (∀ (txt t : String), t ∈ splitTrim txt →
      t ≠ "" ∧ ∃ u ∈ pySplit (Char.ofNat 44) txt, t = pyStrip u) := by
  refine ⟨?_, ?_, ?_, ?_, fun txt => rfl, ?_⟩
  · intro ci tag txt h
    unfold set_info_field
    rw [h]
    exact ⟨_, rfl⟩
  · intro txt h
    have h1 : get_camera_info (.doc [[("latitude", txt)]]) =
        .ok { emptyCameraInfo with latitude := parseFloatLit txt } := rfl
    rw [h1, h]
    rfl
  · intro tag txt h hp
    have h1 : set_info_field emptyCameraInfo tag txt = .error .valueError := by
      unfold set_info_field
      rw [h, hp]
    unfold get_camera_info
    simp only [List.getLast?, List.foldlM, h1]
    rfl
  · intro tag txt h ht
    have h1 : set_info_field emptyCameraInfo tag txt =
        .ok { emptyCameraInfo with extra := [(tag, txt)] } := by
      unfold set_info_field
      rw [h]
      rfl
    have h2 : ("tags" == tag) = false := by
      simp only [beq_eq_false_iff_ne]
      exact fun hh => ht hh.symm
    unfold get_camera_info
    simp only [List.getLast?, List.foldlM, h1]
    simp [List.lookup, h2]
  · intro txt t ht
    unfold splitTrim at ht
    rw [List.mem_filter] at ht
    obtain ⟨hmem, hne⟩ := ht
    rw [List.mem_map] at hmem
    obtain ⟨u, hu, hut⟩ := hmem
    refine ⟨by simpa using hne, u, hu, hut.symm⟩

/-- Witness for C9: the float field "abc" becomes absent without raising,
the int field "abc" raises, and an unrecognized field is kept raw. -/
theorem C9_field_coercion_witness :
    get_camera_info (.doc [[("latitude", "abc")]]) = .ok emptyCameraInfo ∧
    get_camera_info (.doc [[("width", "abc")]]) = .error .valueError ∧
    get_camera_info (.doc [[("city", "x")]]) =
      .ok { emptyCameraInfo with extra := [("city", "x")] } := by
  refine ⟨?_, ?_, ?_⟩
  · exact C9_field_coercion.2.1 "abc" (by rfl)
  · exact C9_field_coercion.2.2.1 "width" "abc" (by rfl) (by rfl)
  · exact C9_field_coercion.2.2.2.1 "city" "x" (by rfl) (by decide)
